import Mathlib

/-!
Shallow embedding of the MOX gas-sensor simulation engine of
`pegasus/simulator/logic/sensors/mox.py` (class `MOX`), together with
theorems settling the specification claims about it.

Conventions:
* Python floats are modelled as real numbers (`ℝ`); `math.pow` on reals is
  `Real.rpow`, `math.sqrt` is `Real.sqrt`, `math.exp` is `Real.exp`.
* Python integers are modelled as `ℤ`.
* The calibration tables (`R0`, `tau_value`, `sensitivity_air`,
  `sensitivity_lineloglog`) are imported by `mox.py` from
  `gas_sensor_utils`, a module of this repository that is not part of the
  sources at hand; they are modelled abstractly, from the spec, as a
  structure of read-only per-model / per-gas constants.
* The gas-data snapshot store (`np.load` of `iteration_<N>_fil.npy` /
  `iteration_<N>_head.npy`) is external file input; it is modelled as a
  function from the iteration index to the loaded data.
* Fallible operations (a numpy indexing that can raise `IndexError`)
  return `Option`.
-/

namespace PegasusMox

/-! ## Iteration scheduler (MOX.update, lines 134-141)

Configuration fields `_iter_start`, `_iter_stop`, `_updates_per_gas_iter`
of `MOX.__init__`.  All three are Python ints. -/

structure SchedCfg where
  iter_start : ℤ
  iter_stop : ℤ
  updates_per_gas_iter : ℤ
  deriving DecidableEq, Repr

/-- Embeds the counter-update block at the top of `MOX.update`:

    if self._filament_iter == self._iter_stop and self._update_iter == self._updates_per_gas_iter:
        self._update_iter = 0
        self._filament_iter = self._iter_start
    elif self._update_iter != self._updates_per_gas_iter:
        self._update_iter += 1
    else:
        self._update_iter = 0
        self._filament_iter += 1

The pair is `(filament_iter, update_iter)`. -/
def stepCounters (c : SchedCfg) : ℤ × ℤ → ℤ × ℤ :=
  fun p =>
    if p.1 = c.iter_stop ∧ p.2 = c.updates_per_gas_iter then (c.iter_start, 0)
    else if p.2 ≠ c.updates_per_gas_iter then (p.1, p.2 + 1)
    else (p.1 + 1, 0)

/-- Counter pair after `n` ticks, starting from the freshly constructed
state `(_iter_start, 0)` set up in `MOX.__init__`. -/
def iterCounters (c : SchedCfg) : ℕ → ℤ × ℤ
  | 0 => (c.iter_start, 0)
  | n + 1 => stepCounters c (iterCounters c n)

/-- The concrete configuration of the worked example in the spec:
`iter_start = 300`, `iter_stop = 305`, `updates_per_gas_iter = 1`. -/
def cfg300 : SchedCfg := ⟨300, 305, 1⟩

/-! ## Calibration tables

Modelled from the spec: `mox.py` imports `R0`, `tau_value`,
`sensitivity_air`, `sensitivity_lineloglog` from
`gas_sensor_utils`, a module of the repository missing from the sources
at hand.  Per the spec's data model they are read-only per-sensor-model /
per-gas constants: `sensitivity_air[model]` the baseline RS/R0 in clean
air, `sensitivity_lineloglog[model][gas] = (A, B)` the coefficients of
`RS/R0 = A * concentration ^ B`, `tau_value[model][0] =
(tau_rise, tau_decay)`, and `R0[model]` the base resistance. -/

structure CalibTables where
  sensitivity_air : ℕ → ℝ
  lineloglog_A : ℕ → ℕ → ℝ
  lineloglog_B : ℕ → ℕ → ℝ
  tau_rise : ℕ → ℝ
  tau_decay : ℕ → ℝ
  R0 : ℕ → ℝ

/-! ## Sensor response model (MOX.simulate_mox_as_line_loglog, lines 213-269) -/

/-- Embeds the computation of `RS_R0` in the tracking (non-first) branch of
`simulate_mox_as_line_loglog`, lines 227-248: the `A*conc^B` law with the
`conc == 0` special case, the clamp at the air baseline, the
`resistance_variation` round trip, and the floor applied to nonpositive
values. -/
noncomputable def rsFromConc (t : CalibTables) (model gas : ℕ) (conc : ℝ) : ℝ :=
  let s_air := t.sensitivity_air model
  let rs0 := if conc = 0 then s_air
             else t.lineloglog_A model gas * conc ^ t.lineloglog_B model gas
  let rs1 := if rs0 > s_air then s_air else rs0
  let resistance_variation := s_air - rs1
  let rs2 := s_air - resistance_variation
  if rs2 ≤ 0 then 0.01 else rs2

/-- Embeds the transient-response filter of `simulate_mox_as_line_loglog`,
lines 250-263: choose `tau_rise` when the target ratio is below the
previous output (rise), else `tau_decay`, and apply the low-pass filter
`alpha * rs + (1 - alpha) * previous` with `alpha = dt / (tau + dt)`. -/
noncomputable def moxTrackOutput (t : CalibTables) (model : ℕ) (dt rs prev : ℝ) : ℝ :=
  let tau := if rs < prev then t.tau_rise model else t.tau_decay model
  let alpha := dt / (tau + dt)
  alpha * rs + (1 - alpha) * prev

/-- Embeds `MOX.simulate_mox_as_line_loglog`.  Arguments `first_reading`
and `previous_sensor_output` are the instance attributes the method reads;
the result is `(returned sensor output in ohms, returned RS_R0,
new previous_sensor_output, new first_reading)`.  In the source,
`_previous_sensor_output` is first created in the `first_reading` branch
and is only read when `first_reading` is false, so the extra argument is
never read before it is set on any path the class can take. -/
noncomputable def simulate_mox_as_line_loglog (t : CalibTables) (model gas : ℕ)
    (dt gas_concentration : ℝ) (first_reading : Bool) (previous_sensor_output : ℝ) :
    ℝ × ℝ × ℝ × Bool :=
  if first_reading then
    let sensor_output := t.sensitivity_air model
    (sensor_output * t.R0 model, sensor_output, sensor_output, false)
  else
    let RS_R0 := rsFromConc t model gas gas_concentration
    let sensor_output := moxTrackOutput t model dt RS_R0 previous_sensor_output
    (sensor_output * t.R0 model, RS_R0, sensor_output, false)

/-- Normalized filtered output after `n` tracking-state calls that all
supply the same target ratio `rs` and the same `dt`, starting from
previous output `p`; each call stores its output as the next call's
`previous_sensor_output` (line 266). -/
noncomputable def trackSeq (t : CalibTables) (model : ℕ) (dt rs p : ℝ) : ℕ → ℝ
  | 0 => p
  | n + 1 => moxTrackOutput t model dt rs (trackSeq t model dt rs p n)

/-! ## Visibility checker (MOX.check_env_for_obstacle3D, lines 272-289) -/

/-- Points in 3D space, with real coordinates `(x, y, z)`. -/
abbrev Vec3 : Type := ℝ × ℝ × ℝ

/-- Environment specification `_env_spec` consumed by the visibility
checker: `env_min` and the uniform voxel edge length `cell_size`. -/
structure EnvSpec where
  env_min : Vec3
  cell_size : ℝ

/-- Embeds line 273, `dist = np.linalg.norm((start, end))`: numpy stacks
the two endpoints into a 2x3 matrix and returns its Frobenius norm, the
square root of the sum of the squares of all six coordinates. -/
noncomputable def normOfPair (a b : Vec3) : ℝ :=
  Real.sqrt (a.1 ^ 2 + a.2.1 ^ 2 + a.2.2 ^ 2 + b.1 ^ 2 + b.2.1 ^ 2 + b.2.2 ^ 2)

/-- Straight-line (Euclidean) distance between two points.  Written from
the spec's words for §4.2 ("compute the straight-line distance between
the two points"), to be compared with what the source computes. -/
noncomputable def euclideanDist (a b : Vec3) : ℝ :=
  Real.sqrt ((a.1 - b.1) ^ 2 + (a.2.1 - b.2.1) ^ 2 + (a.2.2 - b.2.2) ^ 2)

/-- Embeds line 274: `samples = math.ceil(dist / cell_size) + 1` with
`dist = np.linalg.norm((start, end))`. -/
noncomputable def numSamples (spec : EnvSpec) (a b : Vec3) : ℤ :=
  ⌈normOfPair a b / spec.cell_size⌉ + 1

/-- Sample count prescribed by the spec's words for §4.2:
`ceil(distance / cell_size) + 1` with `distance` the Euclidean distance
between the two endpoints. -/
noncomputable def numSamplesSpec (spec : EnvSpec) (a b : Vec3) : ℤ :=
  ⌈euclideanDist a b / spec.cell_size⌉ + 1

/-- Embeds `np.linspace(a, b, n)`: `n` evenly spaced values from `a` to
`b` inclusive (a single value `a` when `n = 1`, empty when `n = 0`). -/
noncomputable def linspace (a b : ℝ) (n : ℕ) : List ℝ :=
  if n = 0 then []
  else if n = 1 then [a]
  else (List.range n).map fun i : ℕ => a + (b - a) * (i : ℝ) / ((n : ℝ) - 1)

/-- Embeds lines 276-281: the list of sampled points, zipping the three
per-axis `linspace` arrays. -/
noncomputable def samplePoints (spec : EnvSpec) (a b : Vec3) : List Vec3 :=
  let n := (numSamples spec a b).toNat
  let xs := linspace a.1 b.1 n
  let ys := linspace a.2.1 b.2.1 n
  let zs := linspace a.2.2 b.2.2 n
  (xs.zip (ys.zip zs)).map fun p => (p.1, p.2.1, p.2.2)

/-- Embeds lines 282-284: world coordinate to voxel index on one axis,
`math.floor((coord - env_min) / cell_size)`. -/
noncomputable def voxelIdx (env_min_c cell coord : ℝ) : ℤ :=
  ⌊(coord - env_min_c) / cell⌋

/-- The occupancy grid `_occ_grid`, a 3D array indexed `[z][x][y]`. -/
abbrev OccGrid : Type := List (List (List ℕ))

/-- Python / numpy sequence indexing with an integer index: a nonnegative
index `i < len` reads position `i`; a negative index with `-len ≤ i`
silently reads position `len + i` (counted from the end); anything else
raises `IndexError`, modelled as `none`. -/
def pyGet {α : Type} (l : List α) (i : ℤ) : Option α :=
  if 0 ≤ i then l.get? i.toNat
  else if 0 ≤ (l.length : ℤ) + i then l.get? ((l.length : ℤ) + i).toNat
  else none

/-- Embeds the occupancy read `self._occ_grid[z_idx, x_idx, y_idx]` of
line 286, with Python indexing semantics on each axis. -/
def occLookup (g : OccGrid) (zi xi yi : ℤ) : Option ℕ :=
  (pyGet g zi).bind fun plane => (pyGet plane xi).bind fun row => pyGet row yi

/-- Embeds the sampling loop, lines 281-289: scan the samples in order;
an occupied voxel returns `false` immediately; an out-of-range voxel
index raises (`none`); if every sample reads free space the segment is
visible (`true`). -/
noncomputable def checkSamples (spec : EnvSpec) (g : OccGrid) : List Vec3 → Option Bool
  | [] => some true
  | p :: rest =>
    let xi := voxelIdx spec.env_min.1 spec.cell_size p.1
    let yi := voxelIdx spec.env_min.2.1 spec.cell_size p.2.1
    let zi := voxelIdx spec.env_min.2.2 spec.cell_size p.2.2
    match occLookup g zi xi yi with
    | none => none
    | some v => if v ≠ 0 then some false else checkSamples spec g rest

/-- Embeds `MOX.check_env_for_obstacle3D`. -/
noncomputable def check_env_for_obstacle3D (spec : EnvSpec) (g : OccGrid) (a b : Vec3) :
    Option Bool :=
  checkSamples spec g (samplePoints spec a b)

/-! ## Concentration estimator (MOX.update lines 167-178,
MOX.concentration_from_filament lines 202-210) -/

/-- One dispersion puff record `(id, x, y, z, sigma)` of a loaded
`iteration_<N>_fil.npy` row. -/
structure Filament where
  fid : ℝ
  x : ℝ
  y : ℝ
  z : ℝ
  sigma : ℝ

/-- Per-iteration header record of `iteration_<N>_head.npy`. -/
structure GasHeader where
  filament_num_moles_of_gas : ℝ
  num_moles_all_gases_in_cm3 : ℝ

/-- Embeds `MOX.concentration_from_filament`: the 3D Gaussian-puff
contribution of one filament, in ppm. -/
noncomputable def concentration_from_filament (loc : Vec3) (f : Filament)
    (h : GasHeader) : ℝ :=
  let distance_cm := 100 * Real.sqrt ((loc.1 - f.x) ^ 2 + (loc.2.1 - f.y) ^ 2 +
    (loc.2.2 - f.z) ^ 2)
  let num_moles_target_cm3 := (h.filament_num_moles_of_gas /
      (Real.sqrt (8 * Real.pi ^ 3) * f.sigma ^ 3)) *
      Real.exp (-distance_cm ^ 2 / (2 * f.sigma ^ 2))
  num_moles_target_cm3 / h.num_moles_all_gases_in_cm3 * 1000000

/-- Embeds one pass of the filament loop in `MOX.update`, lines 168-178:
the filament contributes `concentration_from_filament` when
`dist_SQR < limit_distance^2` (strict) and the visibility check passes,
and `0` otherwise.  A visibility query whose occupancy read goes out of
bounds raises in the source and aborts the tick; gating on `some true`
models exactly the runs in which no query raises. -/
noncomputable def filamentContribution (spec : EnvSpec) (g : OccGrid) (loc : Vec3)
    (f : Filament) (h : GasHeader) : ℝ :=
  let dist_SQR := (loc.1 - f.x) ^ 2 + (loc.2.1 - f.y) ^ 2 + (loc.2.2 - f.z) ^ 2
  let limit_distance := f.sigma * 5 / 100
  if dist_SQR < limit_distance ^ 2 ∧
      check_env_for_obstacle3D spec g loc (f.x, f.y, f.z) = some true then
    concentration_from_filament loc f h
  else 0

/-- Embeds the accumulation `self._gas_conc += ...` over the filament
array, starting from the reset `self._gas_conc = 0.0` of line 167. -/
noncomputable def concentrationAt (spec : EnvSpec) (g : OccGrid) (loc : Vec3)
    (fils : List Filament) (h : GasHeader) : ℝ :=
  fils.foldl (fun acc f => acc + filamentContribution spec g loc f h) 0

/-! ## Sensor facade (MOX.__init__, MOX.update, MOX.stop) -/

/-- The gas-data snapshot store: `np.load` of
`iteration_<N>_fil.npy` / `iteration_<N>_head.npy` keyed by the iteration
index, modelled as a function since the files are external read-only
artifacts. -/
abbrev GasStore : Type := ℤ → List Filament × GasHeader

/-- Mutable per-sensor state, the instance attributes written by
`MOX.__init__`, `MOX.update` and `MOX.stop`.  The extra `loads` field is
bookkeeping with no counterpart in the source: it records, in order, the
iteration indices the sensor has loaded from the store, so that theorems
can speak about which snapshots were read and when. -/
structure MoxState where
  filament_iter : ℤ
  update_iter : ℤ
  sensor_output : ℝ
  gas_conc : ℝ
  RS_R0 : ℝ
  first_reading : Bool
  time_tot : ℝ
  previous_sensor_output : ℝ
  loads : List ℤ

/-- State of a freshly constructed sensor (`MOX.__init__`, lines 71-99):
`_filament_iter = _iter_start`, `_update_iter = 0`, outputs zeroed,
`_first_reading = True`, `_time_tot = 0`.  In the source
`_previous_sensor_output` does not exist yet; it is modelled as `0`, a
value no reachable computation reads before overwriting it. -/
def MoxState.init (c : SchedCfg) : MoxState :=
  ⟨c.iter_start, 0, 0, 0, 0, true, 0, 0, []⟩

/-- Embeds `MOX.stop`, lines 191-199: reset `_filament_iter` to
`_iter_start`, zero the three outputs, set `_first_reading`, zero
`_time_tot`.  The method touches no other attribute. -/
def MOX.stop (c : SchedCfg) (s : MoxState) : MoxState :=
  { s with
    filament_iter := c.iter_start
    sensor_output := 0
    gas_conc := 0
    RS_R0 := 0
    first_reading := true
    time_tot := 0 }

/-- Embeds `MOX.update`, lines 117-187: advance `_time_tot`, step the
iteration counters, load the snapshot and recompute the concentration
exactly when the new `_update_iter` is `0`, then run the response model
and store its results. -/
noncomputable def MOX.update (c : SchedCfg) (t : CalibTables) (model gas : ℕ)
    (spec : EnvSpec) (g : OccGrid) (store : GasStore) (pos : Vec3) (dt : ℝ)
    (s : MoxState) : MoxState :=
  let time' := s.time_tot + dt
  let counters := stepCounters c (s.filament_iter, s.update_iter)
  let gc := if counters.2 = 0 then
      concentrationAt spec g pos (store counters.1).1 (store counters.1).2
    else s.gas_conc
  let loads' := if counters.2 = 0 then s.loads ++ [counters.1] else s.loads
  let r := simulate_mox_as_line_loglog t model gas dt gc s.first_reading
    s.previous_sensor_output
  ⟨counters.1, counters.2, r.1, gc, r.2.1, r.2.2.2, time', r.2.2.1, loads'⟩

/-- Sensor state after `n` ticks from construction; `inputs k` supplies
the `(position, dt)` pair of tick `k`. -/
noncomputable def runMox (c : SchedCfg) (t : CalibTables) (model gas : ℕ)
    (spec : EnvSpec) (g : OccGrid) (store : GasStore) (inputs : ℕ → Vec3 × ℝ) :
    ℕ → MoxState
  | 0 => MoxState.init c
  | n + 1 =>
    MOX.update c t model gas spec g store (inputs n).1 (inputs n).2
      (runMox c t model gas spec g store inputs n)

/-! ## Concrete fixtures for witnesses and counterexamples -/

/-- Calibration table instance with baseline air sensitivity `1`, unit
line-loglog coefficients, unit time constants, and base resistance `2`. -/
def tblTest : CalibTables :=
  ⟨fun _ => 1, fun _ _ => 1, fun _ _ => 1, fun _ => 1, fun _ => 1, fun _ => 2⟩

/-- Calibration table instance whose line-loglog coefficient `A` is
`1/200`, with baseline air sensitivity `1` and base resistance `1`. -/
noncomputable def tblSmallA : CalibTables :=
  ⟨fun _ => 1, fun _ _ => 1 / 200, fun _ _ => 1, fun _ => 1, fun _ => 1, fun _ => 1⟩

/-- Environment specification with origin `env_min` and `cell_size = 0.2`. -/
noncomputable def specTest : EnvSpec := ⟨(0, 0, 0), 1 / 5⟩

/-- One-voxel, all-free occupancy grid. -/
def gridTest : OccGrid := [[[0]]]

/-- Snapshot store with no filaments at any iteration. -/
def storeTest : GasStore := fun _ => ([], ⟨1, 1⟩)

/-! ## Helper lemmas -/

lemma update_counters_eq (c : SchedCfg) (t : CalibTables) (model gas : ℕ)
    (spec : EnvSpec) (g : OccGrid) (store : GasStore) (pos : Vec3) (dt : ℝ)
    (s : MoxState) :
    ((MOX.update c t model gas spec g store pos dt s).filament_iter,
      (MOX.update c t model gas spec g store pos dt s).update_iter) =
      stepCounters c (s.filament_iter, s.update_iter) := rfl

lemma update_gas_conc_eq (c : SchedCfg) (t : CalibTables) (model gas : ℕ)
    (spec : EnvSpec) (g : OccGrid) (store : GasStore) (pos : Vec3) (dt : ℝ)
    (s : MoxState) :
    (MOX.update c t model gas spec g store pos dt s).gas_conc =
      if (stepCounters c (s.filament_iter, s.update_iter)).2 = 0 then
        concentrationAt spec g pos
          (store (stepCounters c (s.filament_iter, s.update_iter)).1).1
          (store (stepCounters c (s.filament_iter, s.update_iter)).1).2
      else s.gas_conc := rfl

lemma update_loads_eq (c : SchedCfg) (t : CalibTables) (model gas : ℕ)
    (spec : EnvSpec) (g : OccGrid) (store : GasStore) (pos : Vec3) (dt : ℝ)
    (s : MoxState) :
    (MOX.update c t model gas spec g store pos dt s).loads =
      if (stepCounters c (s.filament_iter, s.update_iter)).2 = 0 then
        s.loads ++ [(stepCounters c (s.filament_iter, s.update_iter)).1]
      else s.loads := rfl

lemma stepCounters_bounds (c : SchedCfg) (h1 : c.iter_start ≤ c.iter_stop)
    (h2 : 0 ≤ c.updates_per_gas_iter) (p : ℤ × ℤ)
    (hp : c.iter_start ≤ p.1 ∧ p.1 ≤ c.iter_stop ∧ 0 ≤ p.2 ∧
      p.2 ≤ c.updates_per_gas_iter) :
    c.iter_start ≤ (stepCounters c p).1 ∧ (stepCounters c p).1 ≤ c.iter_stop ∧
      0 ≤ (stepCounters c p).2 ∧ (stepCounters c p).2 ≤ c.updates_per_gas_iter := by
  obtain ⟨hp1, hp2, hp3, hp4⟩ := hp
  unfold stepCounters
  split_ifs with hA hB <;> simp_all <;> omega

lemma iterCounters_bounds (c : SchedCfg) (h1 : c.iter_start ≤ c.iter_stop)
    (h2 : 0 ≤ c.updates_per_gas_iter) :
    ∀ n : ℕ, c.iter_start ≤ (iterCounters c n).1 ∧
      (iterCounters c n).1 ≤ c.iter_stop ∧ 0 ≤ (iterCounters c n).2 ∧
      (iterCounters c n).2 ≤ c.updates_per_gas_iter := by
  intro n
  induction n with
  | zero => exact ⟨le_refl _, h1, le_refl _, h2⟩
  | succ n ih => exact stepCounters_bounds c h1 h2 _ ih

lemma runMox_counters (c : SchedCfg) (t : CalibTables) (model gas : ℕ)
    (spec : EnvSpec) (g : OccGrid) (store : GasStore) (inputs : ℕ → Vec3 × ℝ) :
    ∀ n : ℕ,
      ((runMox c t model gas spec g store inputs n).filament_iter,
        (runMox c t model gas spec g store inputs n).update_iter) =
        iterCounters c n := by
  intro n
  induction n with
  | zero => rfl
  | succ n ih =>
    show stepCounters c ((runMox c t model gas spec g store inputs n).filament_iter,
      (runMox c t model gas spec g store inputs n).update_iter) = _
    rw [ih]
    rfl

lemma runMox_bounds (c : SchedCfg) (t : CalibTables) (model gas : ℕ)
    (spec : EnvSpec) (g : OccGrid) (store : GasStore) (inputs : ℕ → Vec3 × ℝ)
    (h1 : c.iter_start ≤ c.iter_stop) (h2 : 0 ≤ c.updates_per_gas_iter) :
    ∀ n : ℕ,
      c.iter_start ≤ (runMox c t model gas spec g store inputs n).filament_iter ∧
      (runMox c t model gas spec g store inputs n).filament_iter ≤ c.iter_stop ∧
      0 ≤ (runMox c t model gas spec g store inputs n).update_iter ∧
      (runMox c t model gas spec g store inputs n).update_iter ≤
        c.updates_per_gas_iter := by
  intro n
  have hc := runMox_counters c t model gas spec g store inputs n
  have hb := iterCounters_bounds c h1 h2 n
  have hfi : (runMox c t model gas spec g store inputs n).filament_iter =
      (iterCounters c n).1 := congrArg Prod.fst hc
  have hui : (runMox c t model gas spec g store inputs n).update_iter =
      (iterCounters c n).2 := congrArg Prod.snd hc
  rw [hfi, hui]
  exact hb

lemma update_filament_iter_eq (c : SchedCfg) (t : CalibTables) (model gas : ℕ)
    (spec : EnvSpec) (g : OccGrid) (store : GasStore) (pos : Vec3) (dt : ℝ)
    (s : MoxState) :
    (MOX.update c t model gas spec g store pos dt s).filament_iter =
      (stepCounters c (s.filament_iter, s.update_iter)).1 := rfl

lemma update_update_iter_eq (c : SchedCfg) (t : CalibTables) (model gas : ℕ)
    (spec : EnvSpec) (g : OccGrid) (store : GasStore) (pos : Vec3) (dt : ℝ)
    (s : MoxState) :
    (MOX.update c t model gas spec g store pos dt s).update_iter =
      (stepCounters c (s.filament_iter, s.update_iter)).2 := rfl

lemma runMox_early (c : SchedCfg) (t : CalibTables) (model gas : ℕ)
    (spec : EnvSpec) (g : OccGrid) (store : GasStore) (inputs : ℕ → Vec3 × ℝ) :
    ∀ k : ℕ, (k : ℤ) ≤ c.updates_per_gas_iter →
      (runMox c t model gas spec g store inputs k).filament_iter = c.iter_start ∧
      (runMox c t model gas spec g store inputs k).update_iter = (k : ℤ) ∧
      (runMox c t model gas spec g store inputs k).loads = [] ∧
      (runMox c t model gas spec g store inputs k).gas_conc = 0 := by
  intro k
  induction k with
  | zero => exact fun _ => ⟨rfl, rfl, rfl, rfl⟩
  | succ k ih =>
    intro hk
    have hk' : (k : ℤ) ≤ c.updates_per_gas_iter := by push_cast at hk ⊢; omega
    obtain ⟨hfi, hui, hl, hg⟩ := ih hk'
    have hkne : (k : ℤ) ≠ c.updates_per_gas_iter := by push_cast at hk; omega
    have hstep : stepCounters c
        ((runMox c t model gas spec g store inputs k).filament_iter,
          (runMox c t model gas spec g store inputs k).update_iter) =
        (c.iter_start, (k : ℤ) + 1) := by
      rw [hfi, hui]
      simp [stepCounters, hkne]
    have e1 : (stepCounters c
        ((runMox c t model gas spec g store inputs k).filament_iter,
          (runMox c t model gas spec g store inputs k).update_iter)).1 =
        c.iter_start := by rw [hstep]
    have e2 : (stepCounters c
        ((runMox c t model gas spec g store inputs k).filament_iter,
          (runMox c t model gas spec g store inputs k).update_iter)).2 =
        (k : ℤ) + 1 := by rw [hstep]
    refine ⟨?_, ?_, ?_, ?_⟩ <;> simp only [runMox]
    · rw [update_filament_iter_eq, e1]
    · rw [update_update_iter_eq, e2]
      omega
    · rw [update_loads_eq, e2, if_neg (by omega), hl]
    · rw [update_gas_conc_eq, e2, if_neg (by omega), hg]

/-! ## Claim theorems -/

/-- C3: on every `update()` tick the counters `(filament_iter, update_iter)`
step by the three-case rule of `MOX.update` lines 134-141 — wrap to
`(iter_start, 0)` when both counters are at their stops, otherwise
increment `update_iter` when it has not reached `updates_per_gas_iter`,
otherwise advance `filament_iter` and zero `update_iter` — and for
`iter_start = 300`, `iter_stop = 305`, `updates_per_gas_iter = 1` the
12-tick trace from the initial state is
`(300,1),(301,0),(301,1),(302,0),(302,1),(303,0),(303,1),(304,0),(304,1),(305,0),(305,1),(300,0)`. -/
theorem claim_C3_scheduler_rule_and_trace :
    (∀ (c : SchedCfg) (fi ui : ℤ),
      (fi = c.iter_stop ∧ ui = c.updates_per_gas_iter →
        stepCounters c (fi, ui) = (c.iter_start, 0)) ∧
      (ui ≠ c.updates_per_gas_iter → stepCounters c (fi, ui) = (fi, ui + 1)) ∧
      (fi ≠ c.iter_stop ∧ ui = c.updates_per_gas_iter →
        stepCounters c (fi, ui) = (fi + 1, 0))) ∧
    (List.range 12).map (fun k => iterCounters cfg300 (k + 1)) =
      [(300, 1), (301, 0), (301, 1), (302, 0), (302, 1), (303, 0), (303, 1),
        (304, 0), (304, 1), (305, 0), (305, 1), (300, 0)] := by
  constructor
  · intro c fi ui
    refine ⟨?_, ?_, ?_⟩
    · rintro ⟨h1, h2⟩
      simp [stepCounters, h1, h2]
    · intro h
      simp [stepCounters, h]
    · rintro ⟨h1, h2⟩
      simp [stepCounters, h1, h2]
  · decide

/-- Witness for C3: the wrap case at the concrete configuration, from
state `(305, 1)`. -/
theorem claim_C3_witness : stepCounters cfg300 (305, 1) = (300, 0) :=
  (claim_C3_scheduler_rule_and_trace.1 cfg300 305 1).1 ⟨rfl, rfl⟩

/-- C4: every state reachable from construction by `update()` ticks keeps
`filament_iter` in `[iter_start, iter_stop]` and `update_iter` in
`[0, updates_per_gas_iter]`; and on any tick the snapshot is loaded and
the concentration recomputed exactly when the tick leaves
`update_iter = 0`, otherwise both the load list and the held
concentration are unchanged. -/
theorem claim_C4_reachable_invariant (c : SchedCfg) (t : CalibTables)
    (model gas : ℕ) (spec : EnvSpec) (g : OccGrid) (store : GasStore)
    (inputs : ℕ → Vec3 × ℝ) (h1 : c.iter_start ≤ c.iter_stop)
    (h2 : 0 ≤ c.updates_per_gas_iter) :
    (∀ n : ℕ,
      c.iter_start ≤ (runMox c t model gas spec g store inputs n).filament_iter ∧
      (runMox c t model gas spec g store inputs n).filament_iter ≤ c.iter_stop ∧
      0 ≤ (runMox c t model gas spec g store inputs n).update_iter ∧
      (runMox c t model gas spec g store inputs n).update_iter ≤
        c.updates_per_gas_iter) ∧
    (∀ (pos : Vec3) (dt : ℝ) (s : MoxState),
      ((MOX.update c t model gas spec g store pos dt s).update_iter = 0 →
        (MOX.update c t model gas spec g store pos dt s).gas_conc =
          concentrationAt spec g pos
            (store (MOX.update c t model gas spec g store pos dt s).filament_iter).1
            (store (MOX.update c t model gas spec g store pos dt s).filament_iter).2 ∧
        (MOX.update c t model gas spec g store pos dt s).loads =
          s.loads ++ [(MOX.update c t model gas spec g store pos dt s).filament_iter]) ∧
      ((MOX.update c t model gas spec g store pos dt s).update_iter ≠ 0 →
        (MOX.update c t model gas spec g store pos dt s).gas_conc = s.gas_conc ∧
        (MOX.update c t model gas spec g store pos dt s).loads = s.loads)) := by
  constructor
  · exact runMox_bounds c t model gas spec g store inputs h1 h2
  · intro pos dt s
    have hui : (MOX.update c t model gas spec g store pos dt s).update_iter =
        (stepCounters c (s.filament_iter, s.update_iter)).2 := rfl
    have hfi : (MOX.update c t model gas spec g store pos dt s).filament_iter =
        (stepCounters c (s.filament_iter, s.update_iter)).1 := rfl
    constructor
    · intro h0
      rw [hui] at h0
      refine ⟨?_, ?_⟩
      · rw [update_gas_conc_eq, if_pos h0, hfi]
      · rw [update_loads_eq, if_pos h0, hfi]
    · intro h0
      rw [hui] at h0
      exact ⟨by rw [update_gas_conc_eq, if_neg h0],
        by rw [update_loads_eq, if_neg h0]⟩

/-- Witness for C4: the invariant instantiated at the concrete
configuration `(300, 305, 1)` with a trivial store and constant inputs. -/
theorem claim_C4_witness :
    (300 : ℤ) ≤ 305 ∧ (0 : ℤ) ≤ 1 ∧
    (∀ n : ℕ,
      (300 : ℤ) ≤ (runMox cfg300 tblTest 0 0 specTest gridTest storeTest
        (fun _ => ((0, 0, 0), 1)) n).filament_iter ∧
      (runMox cfg300 tblTest 0 0 specTest gridTest storeTest
        (fun _ => ((0, 0, 0), 1)) n).filament_iter ≤ 305 ∧
      (0 : ℤ) ≤ (runMox cfg300 tblTest 0 0 specTest gridTest storeTest
        (fun _ => ((0, 0, 0), 1)) n).update_iter ∧
      (runMox cfg300 tblTest 0 0 specTest gridTest storeTest
        (fun _ => ((0, 0, 0), 1)) n).update_iter ≤ 1) :=
  ⟨by norm_num, by norm_num,
    (claim_C4_reachable_invariant cfg300 tblTest 0 0 specTest gridTest storeTest
      (fun _ => ((0, 0, 0), 1)) (by norm_num [cfg300]) (by norm_num [cfg300])).1⟩

/-- C9: with `updates_per_gas_iter ≥ 1` and `iter_start < iter_stop`, the
first tick moves `update_iter` from 0 to 1 and loads nothing; the emitted
`gas_concentration` stays 0 and nothing is loaded through the first
`updates_per_gas_iter` ticks; tick `updates_per_gas_iter + 1` makes the
first load ever, of iteration `iter_start + 1`; and any tick that loads
iteration `iter_start` (leaves `update_iter = 0` with `filament_iter =
iter_start`) starts from the pre-wrap state
`(iter_stop, updates_per_gas_iter)`. -/
theorem claim_C9_first_load_skips_start (c : SchedCfg) (t : CalibTables)
    (model gas : ℕ) (spec : EnvSpec) (g : OccGrid) (store : GasStore)
    (inputs : ℕ → Vec3 × ℝ) (h1 : 1 ≤ c.updates_per_gas_iter)
    (h2 : c.iter_start < c.iter_stop) :
    ((runMox c t model gas spec g store inputs 1).update_iter = 1 ∧
      (runMox c t model gas spec g store inputs 1).loads = []) ∧
    (∀ k : ℕ, (k : ℤ) ≤ c.updates_per_gas_iter →
      (runMox c t model gas spec g store inputs k).gas_conc = 0 ∧
      (runMox c t model gas spec g store inputs k).loads = []) ∧
    (runMox c t model gas spec g store inputs
      (c.updates_per_gas_iter.toNat + 1)).loads = [c.iter_start + 1] ∧
    (∀ n : ℕ,
      (runMox c t model gas spec g store inputs (n + 1)).update_iter = 0 →
      (runMox c t model gas spec g store inputs (n + 1)).filament_iter =
        c.iter_start →
      (runMox c t model gas spec g store inputs n).filament_iter = c.iter_stop ∧
      (runMox c t model gas spec g store inputs n).update_iter =
        c.updates_per_gas_iter) := by
  refine ⟨?_, ?_, ?_, ?_⟩
  · have h := runMox_early c t model gas spec g store inputs 1 (by push_cast; omega)
    exact ⟨h.2.1, h.2.2.1⟩
  · intro k hk
    have h := runMox_early c t model gas spec g store inputs k hk
    exact ⟨h.2.2.2, h.2.2.1⟩
  · have hK : (c.updates_per_gas_iter.toNat : ℤ) = c.updates_per_gas_iter := by
      omega
    have h := runMox_early c t model gas spec g store inputs
      c.updates_per_gas_iter.toNat (by omega)
    obtain ⟨hfi, hui, hl, _⟩ := h
    have hui' : (runMox c t model gas spec g store inputs
        c.updates_per_gas_iter.toNat).update_iter = c.updates_per_gas_iter := by
      rw [hui, hK]
    have hstep : stepCounters c
        ((runMox c t model gas spec g store inputs
            c.updates_per_gas_iter.toNat).filament_iter,
          (runMox c t model gas spec g store inputs
            c.updates_per_gas_iter.toNat).update_iter) =
        (c.iter_start + 1, 0) := by
      rw [hfi, hui']
      simp [stepCounters, ne_of_lt h2]
    have e1 : (stepCounters c
        ((runMox c t model gas spec g store inputs
            c.updates_per_gas_iter.toNat).filament_iter,
          (runMox c t model gas spec g store inputs
            c.updates_per_gas_iter.toNat).update_iter)).1 =
        c.iter_start + 1 := by rw [hstep]
    have e2 : (stepCounters c
        ((runMox c t model gas spec g store inputs
            c.updates_per_gas_iter.toNat).filament_iter,
          (runMox c t model gas spec g store inputs
            c.updates_per_gas_iter.toNat).update_iter)).2 = 0 := by rw [hstep]
    show (MOX.update c t model gas spec g store _ _
      (runMox c t model gas spec g store inputs
        c.updates_per_gas_iter.toNat)).loads = [c.iter_start + 1]
    rw [update_loads_eq, e2, if_pos rfl, e1, hl]
    rfl
  · intro n hui0 hfi0
    have hb := runMox_bounds c t model gas spec g store inputs (le_of_lt h2)
      (by omega) n
    obtain ⟨b1, b2, b3, b4⟩ := hb
    have hui0' : (stepCounters c
        ((runMox c t model gas spec g store inputs n).filament_iter,
          (runMox c t model gas spec g store inputs n).update_iter)).2 = 0 := by
      rw [← update_update_iter_eq c t model gas spec g store (inputs n).1
        (inputs n).2]
      exact hui0
    have hfi0' : (stepCounters c
        ((runMox c t model gas spec g store inputs n).filament_iter,
          (runMox c t model gas spec g store inputs n).update_iter)).1 =
        c.iter_start := by
      rw [← update_filament_iter_eq c t model gas spec g store (inputs n).1
        (inputs n).2]
      exact hfi0
    unfold stepCounters at hui0' hfi0'
    split_ifs at hui0' hfi0' with hA hB
    · exact ⟨hA.1, hA.2⟩
    · simp only at hui0'
      omega
    · simp only at hfi0'
      omega

/-- Witness for C9: the theorem instantiated at the concrete
configuration `(300, 305, 1)`; after `updates_per_gas_iter + 1 = 2` ticks
the only loaded snapshot is iteration `301`. -/
theorem claim_C9_witness :
    (1 : ℤ) ≤ cfg300.updates_per_gas_iter ∧
    cfg300.iter_start < cfg300.iter_stop ∧
    (runMox cfg300 tblTest 0 0 specTest gridTest storeTest
      (fun _ => ((0, 0, 0), 1))
      (cfg300.updates_per_gas_iter.toNat + 1)).loads = [cfg300.iter_start + 1] :=
  ⟨by norm_num [cfg300], by norm_num [cfg300],
    (claim_C9_first_load_skips_start cfg300 tblTest 0 0 specTest gridTest
      storeTest (fun _ => ((0, 0, 0), 1)) (by norm_num [cfg300])
      (by norm_num [cfg300])).2.2.1⟩

/-- C2 (amended): `stop()` restores `filament_iter` to `iter_start`,
zeroes `sensor_output`, `gas_concentration`, `RS_R0` and the total
elapsed time, and sets `first_reading`, but leaves `update_iter`
unchanged; consequently `stop()` followed by `update()` reproduces the
output of a freshly constructed sensor (given identical configuration
and first input) when `update_iter` was `0` at the moment of the reset. -/
theorem claim_C2_stop_reset (c : SchedCfg) (s : MoxState) :
    ((MOX.stop c s).filament_iter = c.iter_start ∧
      (MOX.stop c s).sensor_output = 0 ∧
      (MOX.stop c s).gas_conc = 0 ∧
      (MOX.stop c s).RS_R0 = 0 ∧
      (MOX.stop c s).first_reading = true ∧
      (MOX.stop c s).time_tot = 0 ∧
      (MOX.stop c s).update_iter = s.update_iter) ∧
    (∀ (t : CalibTables) (model gas : ℕ) (spec : EnvSpec) (g : OccGrid)
        (store : GasStore) (pos : Vec3) (dt : ℝ),
      s.update_iter = 0 →
      (MOX.update c t model gas spec g store pos dt
          (MOX.stop c s)).sensor_output =
        (MOX.update c t model gas spec g store pos dt
          (MoxState.init c)).sensor_output ∧
      (MOX.update c t model gas spec g store pos dt (MOX.stop c s)).gas_conc =
        (MOX.update c t model gas spec g store pos dt
          (MoxState.init c)).gas_conc ∧
      (MOX.update c t model gas spec g store pos dt (MOX.stop c s)).RS_R0 =
        (MOX.update c t model gas spec g store pos dt
          (MoxState.init c)).RS_R0) := by
  refine ⟨⟨rfl, rfl, rfl, rfl, rfl, rfl, rfl⟩, ?_⟩
  intro t model gas spec g store pos dt h0
  refine ⟨?_, ?_, ?_⟩ <;>
    simp [MOX.update, MOX.stop, MoxState.init, simulate_mox_as_line_loglog, h0]

/-- Witness for C2 (amended): at a state whose `update_iter` is `0`, the
post-reset update emits the same concentration as the fresh-sensor
update. -/
theorem claim_C2_witness :
    (MoxState.init cfg300).update_iter = 0 ∧
    (MOX.update cfg300 tblTest 0 0 specTest gridTest storeTest (0, 0, 0) 1
        (MOX.stop cfg300 (MoxState.init cfg300))).gas_conc =
      (MOX.update cfg300 tblTest 0 0 specTest gridTest storeTest (0, 0, 0) 1
        (MoxState.init cfg300)).gas_conc :=
  ⟨rfl, ((claim_C2_stop_reset cfg300 (MoxState.init cfg300)).2 tblTest 0 0
    specTest gridTest storeTest (0, 0, 0) 1 rfl).2.1⟩

/-- Counterexample for C2 as stated: after one tick from construction the
sensor has `update_iter = 1`, and `stop()` does not reset it, so the
post-reset mutable state differs from a freshly constructed sensor's
(`update_iter = 0`). -/
theorem claim_C2_counterexample :
    (MOX.stop cfg300 (MOX.update cfg300 tblTest 0 0 specTest gridTest storeTest
      (0, 0, 0) 1 (MoxState.init cfg300))).update_iter ≠ 0 := by
  norm_num [MOX.update, MOX.stop, MoxState.init, stepCounters, cfg300]

/-- C5 (amended): on the very first call the response model returns
`RS_R0 = sensitivity_air[model]` and
`sensor_output = sensitivity_air[model] * R0[model]` (the air baseline
scaled to ohms by the base resistance), regardless of the concentration
argument; the normalized value recorded as `previous_sensor_output` is
`sensitivity_air[model]`. -/
theorem claim_C5_first_call (t : CalibTables) (model gas : ℕ) (dt conc prev : ℝ) :
    simulate_mox_as_line_loglog t model gas dt conc true prev =
      (t.sensitivity_air model * t.R0 model, t.sensitivity_air model,
        t.sensitivity_air model, false) := rfl

/-- Counterexample for C5 as stated: with base resistance `R0 = 2` and air
sensitivity `1`, the first call returns `sensor_output = 2` but
`RS_R0 = 1`, so the returned `sensor_output` does not equal `RS_R0`. -/
theorem claim_C5_counterexample :
    (simulate_mox_as_line_loglog tblTest 0 0 1 7 true 0).1 = 2 ∧
    (simulate_mox_as_line_loglog tblTest 0 0 1 7 true 0).2.1 = 1 ∧
    (2 : ℝ) ≠ 1 := by
  refine ⟨?_, ?_, by norm_num⟩ <;>
    norm_num [simulate_mox_as_line_loglog, tblTest]

/-- C7: a filament whose squared distance to the query position is at
least `(sigma * 5 / 100)^2` contributes exactly zero to the computed gas
concentration (the in-range test of `MOX.update` line 176 is strict `<`). -/
theorem claim_C7_out_of_range_zero (spec : EnvSpec) (g : OccGrid) (loc : Vec3)
    (f : Filament) (h : GasHeader)
    (hfar : (f.sigma * 5 / 100) ^ 2 ≤
      (loc.1 - f.x) ^ 2 + (loc.2.1 - f.y) ^ 2 + (loc.2.2 - f.z) ^ 2) :
    filamentContribution spec g loc f h = 0 := by
  have hng : ¬((loc.1 - f.x) ^ 2 + (loc.2.1 - f.y) ^ 2 + (loc.2.2 - f.z) ^ 2 <
      (f.sigma * 5 / 100) ^ 2 ∧
      check_env_for_obstacle3D spec g loc (f.x, f.y, f.z) = some true) :=
    fun hcon => absurd hcon.1 (not_lt.2 hfar)
  simp only [filamentContribution]
  rw [if_neg hng]

/-- Concrete filament for the C7 witness: centered at the origin with
`sigma = 1`. -/
def filTest : Filament := ⟨0, 0, 0, 0, 1⟩

/-- Concrete iteration header for the C7 witness. -/
def hdrTest : GasHeader := ⟨1, 1⟩

/-- Witness for C7: at distance `1` from a filament with `sigma = 1`
(`limit_distance = 0.05`), the contribution is zero. -/
theorem claim_C7_witness :
    (filTest.sigma * 5 / 100) ^ 2 ≤
      ((1 : ℝ) - filTest.x) ^ 2 + ((0 : ℝ) - filTest.y) ^ 2 +
        ((0 : ℝ) - filTest.z) ^ 2 ∧
    filamentContribution specTest gridTest (1, 0, 0) filTest hdrTest = 0 :=
  ⟨by norm_num [filTest],
    claim_C7_out_of_range_zero specTest gridTest (1, 0, 0) filTest hdrTest
      (by norm_num [filTest])⟩

/-- C8 (amended): on every tracking-state call with nonnegative
concentration and positive calibration constants, the returned `RS_R0`
(which is `rsFromConc`) never exceeds `sensitivity_air[model]` and is
strictly positive; the `0.01` floor raises only nonpositive computed
ratios, so the guaranteed range is `(0, sensitivity_air[model]]` rather
than `[0.01, sensitivity_air[model]]`. -/
theorem claim_C8_rs_range (t : CalibTables) (model gas : ℕ) (conc : ℝ)
    (h0 : 0 ≤ conc) (hA : 0 < t.lineloglog_A model gas)
    (hair : 0 < t.sensitivity_air model) :
    (∀ (dt prev : ℝ),
      (simulate_mox_as_line_loglog t model gas dt conc false prev).2.1 =
        rsFromConc t model gas conc) ∧
    0 < rsFromConc t model gas conc ∧
    rsFromConc t model gas conc ≤ t.sensitivity_air model := by
  refine ⟨fun dt prev => rfl, ?_⟩
  have hfloor : ¬ t.sensitivity_air model ≤ 0 := not_le.2 hair
  by_cases hc : conc = 0
  · simp only [rsFromConc]
    rw [if_pos hc, if_neg (lt_irrefl _), sub_sub_cancel, if_neg hfloor]
    exact ⟨hair, le_refl _⟩
  · have hcpos : 0 < conc := lt_of_le_of_ne h0 (Ne.symm hc)
    have hR0 : 0 < t.lineloglog_A model gas *
        conc ^ t.lineloglog_B model gas :=
      mul_pos hA (Real.rpow_pos_of_pos hcpos _)
    simp only [rsFromConc]
    rw [if_neg hc]
    by_cases hclamp : t.lineloglog_A model gas *
        conc ^ t.lineloglog_B model gas > t.sensitivity_air model
    · rw [if_pos hclamp, sub_sub_cancel, if_neg hfloor]
      exact ⟨hair, le_refl _⟩
    · rw [if_neg hclamp, sub_sub_cancel, if_neg (not_le.2 hR0)]
      exact ⟨hR0, not_lt.1 hclamp⟩

/-- Witness for C8 (amended): at zero concentration with unit
calibration constants, the returned ratio is positive and at most the
air baseline. -/
theorem claim_C8_witness :
    (0 : ℝ) ≤ 0 ∧ 0 < rsFromConc tblTest 0 0 0 ∧
      rsFromConc tblTest 0 0 0 ≤ tblTest.sensitivity_air 0 :=
  ⟨le_refl 0, (claim_C8_rs_range tblTest 0 0 0 (le_refl 0)
    (by norm_num [tblTest]) (by norm_num [tblTest])).2⟩

/-- Counterexample for C8 as stated: with `A = 1/200`, air baseline `1`
and concentration `1`, the tracking-state call returns
`RS_R0 = 1/200 = 0.005 < 0.01`: the `0.01` floor (line 247) applies only
to ratios `≤ 0`, so small positive ratios pass through unfloored and the
claimed lower bound `0.01` fails. -/
theorem claim_C8_counterexample :
    (simulate_mox_as_line_loglog tblSmallA 0 0 1 1 false 1).2.1 = 1 / 200 ∧
    ¬((1 : ℝ) / 100 ≤ 1 / 200) := by
  constructor
  · simp only [simulate_mox_as_line_loglog, rsFromConc, tblSmallA]
    norm_num [Real.one_rpow]
  · norm_num

lemma trackStep_eq_above (t : CalibTables) (model : ℕ) (dt r p : ℝ)
    (hp : r ≤ p) :
    moxTrackOutput t model dt r p =
      r + (1 - dt / (t.tau_rise model + dt)) * (p - r) := by
  by_cases hbr : r < p
  · simp only [moxTrackOutput]
    rw [if_pos hbr]
    ring
  · have heq : p = r := le_antisymm (not_lt.1 hbr) hp
    simp only [moxTrackOutput]
    rw [if_neg hbr, heq]
    ring

lemma trackStep_eq_below (t : CalibTables) (model : ℕ) (dt r p : ℝ)
    (hp : p ≤ r) :
    moxTrackOutput t model dt r p =
      r - (1 - dt / (t.tau_decay model + dt)) * (r - p) := by
  simp only [moxTrackOutput]
  rw [if_neg (not_lt.2 hp)]
  ring

/-- C6: when the same concentration (hence the same calibrated `RS_R0`
target) and the same `dt` are supplied on every tracking-state call, the
normalized filtered output converges monotonically toward the calibrated
`RS_R0` value, the step-to-step distance shrinking by exactly the factor
`1 - alpha` with `alpha = dt / (tau + dt)` — `tau_rise` when approaching
from above, `tau_decay` when approaching from below. -/
theorem claim_C6_convergence (t : CalibTables) (model gas : ℕ) (dt conc p : ℝ)
    (hdt : 0 < dt) (hrise : 0 ≤ t.tau_rise model)
    (hdecay : 0 ≤ t.tau_decay model) :
    (∀ prev : ℝ,
      (simulate_mox_as_line_loglog t model gas dt conc false prev).2.2.1 =
        moxTrackOutput t model dt (rsFromConc t model gas conc) prev) ∧
    (rsFromConc t model gas conc ≤ p →
      ∀ n : ℕ,
        trackSeq t model dt (rsFromConc t model gas conc) p (n + 1) -
            rsFromConc t model gas conc =
          (1 - dt / (t.tau_rise model + dt)) *
            (trackSeq t model dt (rsFromConc t model gas conc) p n -
              rsFromConc t model gas conc) ∧
        rsFromConc t model gas conc ≤
          trackSeq t model dt (rsFromConc t model gas conc) p (n + 1) ∧
        trackSeq t model dt (rsFromConc t model gas conc) p (n + 1) ≤
          trackSeq t model dt (rsFromConc t model gas conc) p n) ∧
    (p ≤ rsFromConc t model gas conc →
      ∀ n : ℕ,
        rsFromConc t model gas conc -
            trackSeq t model dt (rsFromConc t model gas conc) p (n + 1) =
          (1 - dt / (t.tau_decay model + dt)) *
            (rsFromConc t model gas conc -
              trackSeq t model dt (rsFromConc t model gas conc) p n) ∧
        trackSeq t model dt (rsFromConc t model gas conc) p n ≤
          trackSeq t model dt (rsFromConc t model gas conc) p (n + 1) ∧
        trackSeq t model dt (rsFromConc t model gas conc) p (n + 1) ≤
          rsFromConc t model gas conc) := by
  set r := rsFromConc t model gas conc with hr
  refine ⟨fun prev => rfl, ?_, ?_⟩
  · intro hp
    have hpos : 0 < t.tau_rise model + dt := by linarith
    have hα0 : 0 < dt / (t.tau_rise model + dt) := div_pos hdt hpos
    have hα1 : dt / (t.tau_rise model + dt) ≤ 1 := by
      rw [div_le_one hpos]
      linarith
    have inv : ∀ n : ℕ, r ≤ trackSeq t model dt r p n := by
      intro n
      induction n with
      | zero => exact hp
      | succ n ih =>
        have he : trackSeq t model dt r p (n + 1) =
            r + (1 - dt / (t.tau_rise model + dt)) *
              (trackSeq t model dt r p n - r) :=
          trackStep_eq_above t model dt r _ ih
        rw [he]
        nlinarith [mul_nonneg (by linarith : (0:ℝ) ≤
          1 - dt / (t.tau_rise model + dt)) (sub_nonneg.2 ih)]
    intro n
    have ihn := inv n
    have he : trackSeq t model dt r p (n + 1) =
        r + (1 - dt / (t.tau_rise model + dt)) *
          (trackSeq t model dt r p n - r) :=
      trackStep_eq_above t model dt r _ ihn
    refine ⟨by rw [he]; ring, inv (n + 1), ?_⟩
    rw [he]
    nlinarith [mul_nonneg hα0.le (sub_nonneg.2 ihn)]
  · intro hp
    have hpos : 0 < t.tau_decay model + dt := by linarith
    have hα0 : 0 < dt / (t.tau_decay model + dt) := div_pos hdt hpos
    have hα1 : dt / (t.tau_decay model + dt) ≤ 1 := by
      rw [div_le_one hpos]
      linarith
    have inv : ∀ n : ℕ, trackSeq t model dt r p n ≤ r := by
      intro n
      induction n with
      | zero => exact hp
      | succ n ih =>
        have he : trackSeq t model dt r p (n + 1) =
            r - (1 - dt / (t.tau_decay model + dt)) *
              (r - trackSeq t model dt r p n) :=
          trackStep_eq_below t model dt r _ ih
        rw [he]
        nlinarith [mul_nonneg (by linarith : (0:ℝ) ≤
          1 - dt / (t.tau_decay model + dt)) (sub_nonneg.2 ih)]
    intro n
    have ihn := inv n
    have he : trackSeq t model dt r p (n + 1) =
        r - (1 - dt / (t.tau_decay model + dt)) *
          (r - trackSeq t model dt r p n) :=
      trackStep_eq_below t model dt r _ ihn
    refine ⟨by rw [he]; ring, ?_, inv (n + 1)⟩
    rw [he]
    nlinarith [mul_nonneg hα0.le (sub_nonneg.2 ihn)]

/-- Witness for C6: unit time constants, `dt = 1`, zero concentration
(target ratio `1`), starting output `3`: the first step's distance to the
target shrinks by the factor `1 - alpha`. -/
theorem claim_C6_witness :
    (0 : ℝ) < 1 ∧ rsFromConc tblTest 0 0 0 ≤ 3 ∧
    trackSeq tblTest 0 1 (rsFromConc tblTest 0 0 0) 3 1 -
        rsFromConc tblTest 0 0 0 =
      (1 - 1 / (tblTest.tau_rise 0 + 1)) *
        (trackSeq tblTest 0 1 (rsFromConc tblTest 0 0 0) 3 0 -
          rsFromConc tblTest 0 0 0) :=
  ⟨by norm_num, by norm_num [rsFromConc, tblTest],
    ((claim_C6_convergence tblTest 0 0 1 0 3 (by norm_num)
        (by norm_num [tblTest]) (by norm_num [tblTest])).2.1
      (by norm_num [rsFromConc, tblTest]) 0).1⟩

lemma linspace_length (a b : ℝ) (n : ℕ) : (linspace a b n).length = n := by
  unfold linspace
  split_ifs with h0 h1
  · simp [h0]
  · simp [h1]
  · rw [List.length_map, List.length_range]

/-- C1: the sample count the source computes is
`ceil(np.linalg.norm((start, end)) / cell_size) + 1`, the norm of the
*stacked pair* of endpoints, not of their difference.  At
`start = (3,0,0)`, `end = (4,0,0)`, `cell_size = 0.2`, the source
generates `ceil(5 / 0.2) + 1 = 26` sample points, while the claimed
formula `ceil(d / cell_size) + 1` with `d` the Euclidean distance (= 1)
gives `6`. -/
theorem claim_C1_sample_count_bug :
    numSamples specTest (3, 0, 0) (4, 0, 0) = 26 ∧
    numSamplesSpec specTest (3, 0, 0) (4, 0, 0) = 6 ∧
    (samplePoints specTest (3, 0, 0) (4, 0, 0)).length = 26 := by
  have hnorm : normOfPair ((3 : ℝ), 0, 0) ((4 : ℝ), 0, 0) = 5 := by
    simp only [normOfPair]
    norm_num
    rw [show (25 : ℝ) = 5 ^ 2 by norm_num]
    exact Real.sqrt_sq (by norm_num)
  have hdist : euclideanDist ((3 : ℝ), 0, 0) ((4 : ℝ), 0, 0) = 1 := by
    simp only [euclideanDist]
    norm_num
  have hA : numSamples specTest (3, 0, 0) (4, 0, 0) = 26 := by
    simp only [numSamples, hnorm, specTest]
    norm_num
  refine ⟨hA, ?_, ?_⟩
  · simp only [numSamplesSpec, hdist, specTest]
    norm_num
  · simp only [samplePoints, hA]
    simp [List.length_zip, linspace_length]

lemma pyGet_pos {α : Type} (l : List α) (i : ℤ) (h0 : 0 ≤ i)
    (hlt : i < (l.length : ℤ)) :
    ∃ a, pyGet l i = some a ∧ a ∈ l := by
  unfold pyGet
  rw [if_pos h0]
  have hlt' : i.toNat < l.length := by omega
  refine ⟨l.get ⟨i.toNat, hlt'⟩, ?_, List.get_mem l i.toNat hlt'⟩
  rw [List.get?_eq_get hlt']

/-- C10: the occupancy lookup of `check_env_for_obstacle3D` is in bounds
only when every sampled point maps to voxel indices in `[0, num_cells)`
on each axis (then the scan completes without error); a sampled
coordinate below `env_min` yields a negative floor index, and a negative
index within `-len ≤ i < 0` silently reads the entry at `len + i` —
from the opposite side of the axis — instead of failing, while an index
at or beyond the axis extent makes the lookup fail (`IndexError`,
modelled as `none`). -/
theorem claim_C10_indexing :
    (∀ (mn cell x : ℝ), 0 < cell → x < mn → voxelIdx mn cell x < 0) ∧
    (∀ (l : List ℕ) (i : ℤ), -(l.length : ℤ) ≤ i → i < 0 →
      pyGet l i = l.get? ((l.length : ℤ) + i).toNat ∧
      (pyGet l i).isSome = true) ∧
    (∀ (l : List ℕ) (i : ℤ), (l.length : ℤ) ≤ i → pyGet l i = none) ∧
    (∀ (spec : EnvSpec) (g : OccGrid) (nx ny : ℕ) (ps : List Vec3),
      (∀ plane ∈ g, plane.length = nx ∧ ∀ row ∈ plane, row.length = ny) →
      (∀ q ∈ ps,
        0 ≤ voxelIdx spec.env_min.2.2 spec.cell_size q.2.2 ∧
        voxelIdx spec.env_min.2.2 spec.cell_size q.2.2 < (g.length : ℤ) ∧
        0 ≤ voxelIdx spec.env_min.1 spec.cell_size q.1 ∧
        voxelIdx spec.env_min.1 spec.cell_size q.1 < (nx : ℤ) ∧
        0 ≤ voxelIdx spec.env_min.2.1 spec.cell_size q.2.1 ∧
        voxelIdx spec.env_min.2.1 spec.cell_size q.2.1 < (ny : ℤ)) →
      (checkSamples spec g ps).isSome = true) := by
  refine ⟨?_, ?_, ?_, ?_⟩
  · intro mn cell x hc hx
    have hneg : (x - mn) / cell < 0 :=
      div_neg_of_neg_of_pos (by linarith) hc
    exact Int.floor_lt.2 (by push_cast; exact hneg)
  · intro l i hge hlt
    have h1 : ¬ 0 ≤ i := not_le.2 hlt
    have h2 : 0 ≤ (l.length : ℤ) + i := by omega
    have hlen : ((l.length : ℤ) + i).toNat < l.length := by omega
    constructor
    · unfold pyGet
      rw [if_neg h1, if_pos h2]
    · unfold pyGet
      rw [if_neg h1, if_pos h2, List.get?_eq_get hlen]
      rfl
  · intro l i h
    have h0 : 0 ≤ i := by omega
    unfold pyGet
    rw [if_pos h0]
    exact List.get?_eq_none.2 (by omega)
  · intro spec g nx ny ps hrect hin
    induction ps with
    | nil => rfl
    | cons q rest ih =>
      obtain ⟨hz0, hz1, hx0, hx1, hy0, hy1⟩ := hin q (List.mem_cons_self _ _)
      obtain ⟨plane, hpl, hplmem⟩ := pyGet_pos g _ hz0 hz1
      obtain ⟨hplen, hrows⟩ := hrect plane hplmem
      obtain ⟨row, hrow, hrowmem⟩ :=
        pyGet_pos plane _ hx0 (by rw [hplen]; exact hx1)
      obtain ⟨v, hv, -⟩ :=
        pyGet_pos row _ hy0 (by rw [hrows row hrowmem]; exact hy1)
      have hocc : occLookup g (voxelIdx spec.env_min.2.2 spec.cell_size q.2.2)
          (voxelIdx spec.env_min.1 spec.cell_size q.1)
          (voxelIdx spec.env_min.2.1 spec.cell_size q.2.1) = some v := by
        unfold occLookup
        rw [hpl, Option.some_bind, hrow, Option.some_bind, hv]
      simp only [checkSamples, hocc]
      by_cases hv0 : v = 0
      · rw [if_neg (by simp [hv0])]
        exact ih (fun q' hq' => hin q' (List.mem_cons_of_mem _ hq'))
      · rw [if_pos hv0]
        rfl

/-- Witness for C10: reading index 5 of a one-element axis fails out of
bounds. -/
theorem claim_C10_witness : pyGet [(3 : ℕ)] 5 = none :=
  claim_C10_indexing.2.2.1 [3] 5 (by norm_num)

end PegasusMox
